import Mathlib

/-!
Shallow embedding of the k0s node-teardown code (`pkg/cleanup` install package
and `pkg/container/runtime`), together with theorems checking the
natural-language specification against it.

Effectful collaborators (the mount table, `os.RemoveAll`, `os.Remove`, the
container-runtime client, process signalling) are modelled by an explicit
environment `SysEnv` of result-valued functions; each embedded Go function
returns its Go result together with the trace of destructive actions it
attempted, in order.  A Go `error` result is `Except String`; a Go call that
either succeeds or yields an error message is `Option String` (`some msg` =
failure).  A Go panic (nil-pointer dereference) is modelled as an
`Except.error nilDeref` outcome of the whole routine.
-/

set_option autoImplicit false

namespace K0s

/-- `strings.Contains`: does `s` contain `pat` as a substring?  Checked on
character lists. -/
def startsWithChars : List Char → List Char → Bool
  | [], _ => true
  | _ :: _, [] => false
  | a :: as, b :: bs => a == b && startsWithChars as bs

def containsChars (pat : List Char) : List Char → Bool
  | [] => startsWithChars pat []
  | c :: rest => startsWithChars pat (c :: rest) || containsChars pat rest

def strContains (s pat : String) : Bool :=
  containsChars pat.toList s.toList

/-- One entry of the live mount table (`mount.MountPoint`). -/
structure MountPoint where
  path : String
  device : String
  fstype : String
deriving DecidableEq

/-- The observable part of an `exec.Cmd` after `Start`: `cmd.Process`
(nil until a successful `Start`, here `processPid`) and
`cmd.ProcessState.ExitCode()` (Go's `ExitCode` is nil-safe and returns `-1`
while the state is nil, i.e. before any `Wait`). -/
structure Cmd where
  processPid : Option Int
  processStateExitCode : Option Int
deriving DecidableEq

/-- The `containerd` struct of the install package. -/
structure Containerd where
  binPath : String
  socketPath : String
  cmd : Option Cmd
deriving DecidableEq

/-- `runtime.ContainerRuntime` concrete variants; the interface value itself
is `Option ContainerRuntime` (`none` = Go nil interface). -/
inductive ContainerRuntime where
  | CRIRuntime (criSocketPath : String)
deriving DecidableEq

/-- The `CleanUpConfig` struct. -/
structure CleanUpConfig where
  containerd : Option Containerd
  containerRuntime : Option ContainerRuntime
  dataDir : String
  runDir : String
deriving DecidableEq

/-- The destructive actions a teardown routine can attempt, in order. -/
inductive Action where
  | unmount (path : String)
  | removeAll (path : String)
  | removeFile (path : String)
  | stopContainer (id : String)
  | removeContainer (id : String)
  | spawn (bin : String) (args : List String)
  | sigInterrupt
  | sleep (seconds : Nat)
  | sigKill
deriving DecidableEq

/-- The environment of effectful collaborators: each field gives the result
the outside world returns for the corresponding call.  `Option String` is
`some errorMessage` on failure, `none` on success. -/
structure SysEnv where
  mounterList : Except String (List MountPoint)
  unmount : String → Option String
  removeAll : String → Option String
  removeFile : String → Option String
  listContainers : Except String (List String)
  stopContainer : String → Option String
  removeContainer : String → Option String
  cmdStart : Option String
  startedPid : Int
  sigInterruptErr : Option String
  sigKillErr : Option String

/-- `err.Error()` collected into a message list: one entry on failure. -/
def errList : Option String → List String
  | some e => [e]
  | none => []

/-- `if len(msg) > 0 { return fmt.Errorf("%v", strings.Join(msg, ", ")) }`. -/
def joinErr (msg : List String) : Except String Unit :=
  if msg.length > 0 then Except.error (String.intercalate ", " msg) else Except.ok ()

/-- The message a Go panic (nil-pointer dereference) is modelled as. -/
def nilDeref : String := "nil pointer dereference"

/-- `runtime.NewContainerRuntime`: returns the Go pair
(interface value, error).  For `"docker"` it returns `(nil, nil)`. -/
def NewContainerRuntime (runtimeType criSocketPath : String) :
    Option ContainerRuntime × Option String :=
  if runtimeType == "docker" then (none, none)
  else (some (ContainerRuntime.CRIRuntime criSocketPath), none)

/-- The hard-coded run directory of `NewCleanUpConfig`. -/
def runDirConst : String := "/run/k0s"

/-- `NewCleanUpConfig`, parametric in `worker.SplitRuntimeConfig` (that
helper lives outside this code slice; only its `(runtimeType, socketPath)`
or error outcome matters here). -/
def NewCleanUpConfig (splitRuntimeConfig : String → Except String (String × String))
    (dataDir criSocketPath : String) : Except String CleanUpConfig :=
  let runDir := runDirConst
  if criSocketPath == "" then
    let sock := "unix:///" ++ runDir ++ "/containerd.sock"
    let ctrd : Containerd :=
      { binPath := dataDir ++ "/bin/containerd"
        socketPath := runDir ++ "/containerd.sock"
        cmd := none }
    Except.ok
      { containerd := some ctrd
        containerRuntime := (NewContainerRuntime "cri" sock).1
        dataDir := dataDir
        runDir := runDir }
  else
    match splitRuntimeConfig criSocketPath with
    | Except.error e => Except.error e
    | Except.ok rc =>
      Except.ok
        { containerd := none
          containerRuntime := (NewContainerRuntime rc.1 rc.2).1
          dataDir := dataDir
          runDir := runDir }

/-- The shared loop body of `cleanupMount` and `cleanupNetworkNamespace`
(the two Go functions inline this loop with their respective substring
literals): for every mount entry whose path contains `pat`, attempt
`Unmount` then `os.RemoveAll`, collecting each failure message. -/
def substrRevertLoop (env : SysEnv) (pat : String) :
    List MountPoint → List String × List Action
  | [] => ([], [])
  | v :: rest =>
    let tl := substrRevertLoop env pat rest
    if strContains v.path pat then
      (errList (env.unmount v.path) ++ (errList (env.removeAll v.path) ++ tl.1),
       Action.unmount v.path :: Action.removeAll v.path :: tl.2)
    else tl

/-- `(c *CleanUpConfig) cleanupMount`. -/
def cleanupMount (env : SysEnv) : Except String Unit × List Action :=
  match env.mounterList with
  | Except.error e => (Except.error e, [])
  | Except.ok procMounts =>
    let r := substrRevertLoop env "kubelet/pods" procMounts
    (joinErr r.1, r.2)

/-- `(c *CleanUpConfig) cleanupNetworkNamespace`. -/
def cleanupNetworkNamespace (env : SysEnv) : Except String Unit × List Action :=
  match env.mounterList with
  | Except.error e => (Except.error e, [])
  | Except.ok procMounts =>
    let r := substrRevertLoop env "run/netns" procMounts
    (joinErr r.1, r.2)

/-- The per-container loop of `stopAllContainers`: a stop failure whose
message contains `"443: connect: connection refused"` is ignored (logged at
debug), any other failure is collected formatted. -/
def stopAllLoop (env : SysEnv) : List String → List String × List Action
  | [] => ([], [])
  | c :: rest =>
    let tl := stopAllLoop env rest
    let hd : List String :=
      match env.stopContainer c with
      | some e =>
        if strContains e "443: connect: connection refused" then []
        else ["failed to stop running pod " ++ c ++ ": err: " ++ e]
      | none => []
    (hd ++ tl.1, Action.stopContainer c :: tl.2)

/-- `(c *CleanUpConfig) stopAllContainers`. -/
def stopAllContainers (env : SysEnv) : Except String Unit × List Action :=
  match env.listContainers with
  | Except.error e => (Except.error e, [])
  | Except.ok containers =>
    let r := stopAllLoop env containers
    (joinErr r.1, r.2)

/-- The per-container loop of `removeAllContainers`: every failure is
collected formatted. -/
def removeAllLoop (env : SysEnv) : List String → List String × List Action
  | [] => ([], [])
  | c :: rest =>
    let tl := removeAllLoop env rest
    let hd : List String :=
      match env.removeContainer c with
      | some e => ["failed to remove pod " ++ c ++ ": err: " ++ e]
      | none => []
    (hd ++ tl.1, Action.removeContainer c :: tl.2)

/-- `(c *CleanUpConfig) removeAllContainers`. -/
def removeAllContainers (env : SysEnv) : Except String Unit × List Action :=
  match env.listContainers with
  | Except.error e => (Except.error e, [])
  | Except.ok containers =>
    let r := removeAllLoop env containers
    (joinErr r.1, r.2)

/-- `(c *CleanUpConfig) startContainerd`: on `cmd.Start()` success the
`cmd` handle (with a live `Process` and nil `ProcessState`) is recorded on
`c.containerd`.  Dereferencing a nil `c.containerd` is a panic. -/
def startContainerd (env : SysEnv) (c : CleanUpConfig) :
    Except String (CleanUpConfig × List Action) :=
  match c.containerd with
  | none => Except.error nilDeref
  | some ctrd =>
    let args := ["--root=" ++ c.dataDir ++ "/containerd",
                 "--state=" ++ c.runDir ++ "/containerd",
                 "--address=" ++ ctrd.socketPath,
                 "--config=/etc/k0s/containerd.toml"]
    match env.cmdStart with
    | some e => Except.error ("failed to start containerd: " ++ e)
    | none =>
      Except.ok
        ({ c with containerd := some { ctrd with
            cmd := some { processPid := some env.startedPid
                          processStateExitCode := none } } },
         [Action.spawn ctrd.binPath args])

/-- `cmd.ProcessState.ExitCode()`: `-1` while `ProcessState` is nil. -/
def cmdExitCode (cmd : Cmd) : Int :=
  match cmd.processStateExitCode with
  | some n => n
  | none => -1

/-- The `logrus.Errorf` line emitted when the interrupt signal fails. -/
def interruptLog (env : SysEnv) : List String :=
  match env.sigInterruptErr with
  | some e => ["failed to kill containerd: " ++ e]
  | none => []

/-- The `logrus.Errorf` line emitted when the kill signal fails. -/
def killLog (env : SysEnv) : List String :=
  match env.sigKillErr with
  | some e => ["failed to send SIGKILL to containerd: " ++ e]
  | none => []

/-- `(c *CleanUpConfig) stopContainerd`: sends the interrupt signal (a
failure is only logged), then — per the literal source condition — sleeps
5s and sends the kill signal when `ExitCode() != -1`.  The routine returns
its action trace and the error log lines; `Except.error nilDeref` models
the panic when `c.containerd`, `.cmd` or `.cmd.Process` is nil. -/
def stopContainerd (env : SysEnv) (c : CleanUpConfig) :
    Except String (List Action × List String) :=
  match c.containerd with
  | none => Except.error nilDeref
  | some ctrd =>
    match ctrd.cmd with
    | none => Except.error nilDeref
    | some cmd =>
      match cmd.processPid with
      | none => Except.error nilDeref
      | some _ =>
        if cmdExitCode cmd ≠ -1 then
          Except.ok ([Action.sigInterrupt, Action.sleep 5, Action.sigKill],
            interruptLog env ++ killLog env)
        else
          Except.ok ([Action.sigInterrupt], interruptLog env)

/-- The fixed CNI leftover paths. -/
def calico10Conflist : String := "/etc/cni/net.d/10-calico.conflist"

def calicoKubeconfig : String := "/etc/cni/net.d/calico-kubeconfig"

def kuberouter10Conflist : String := "/etc/cni/net.d/10-kuberouter.conflist"

/-- `removeCNILeftovers`: attempts `os.Remove` on the three fixed paths;
the Go function returns nothing — the `Option String` here is the one
debug-level log line it may emit. -/
def removeCNILeftovers (env : SysEnv) : Option String × List Action :=
  let msg : List String :=
    (match env.removeFile calico10Conflist with
     | some e => ["failed to delete " ++ calico10Conflist ++ ". err: " ++ e]
     | none => []) ++
    (match env.removeFile calicoKubeconfig with
     | some e => ["failed to delete " ++ calicoKubeconfig ++ ". err: " ++ e]
     | none => []) ++
    (match env.removeFile kuberouter10Conflist with
     | some e => ["failed to delete " ++ kuberouter10Conflist ++ ". err: " ++ e]
     | none => [])
  (if msg.length > 0 then some (String.intercalate ", " msg) else none,
   [Action.removeFile calico10Conflist, Action.removeFile calicoKubeconfig,
    Action.removeFile kuberouter10Conflist])

/-- The mount loop of `RemoveAllDirectories`: unmount (only) every entry
whose path is exactly `dataDir + "/kubelet"` or exactly `dataDir`,
collecting unmount failure messages. -/
def removeAllDirsLoop (env : SysEnv) (dataDir : String) :
    List MountPoint → List String × List Action
  | [] => ([], [])
  | v :: rest =>
    let tl := removeAllDirsLoop env dataDir rest
    if v.path == dataDir ++ "/kubelet" then
      (errList (env.unmount v.path) ++ tl.1, Action.unmount v.path :: tl.2)
    else if v.path == dataDir then
      (errList (env.unmount v.path) ++ tl.1, Action.unmount v.path :: tl.2)
    else tl

/-- `(c *CleanUpConfig) RemoveAllDirectories`. -/
def RemoveAllDirectories (env : SysEnv) (c : CleanUpConfig) :
    Except String Unit × List Action :=
  match env.mounterList with
  | Except.error e => (Except.error e, [])
  | Except.ok procMounts =>
    let step1 := removeAllDirsLoop env c.dataDir procMounts
    let cni := removeCNILeftovers env
    let msg3 : List String :=
      match env.removeAll c.dataDir with
      | some e => ["failed to delete " ++ c.dataDir ++ ". err: " ++ e]
      | none => []
    let msg4 : List String :=
      match env.removeAll c.runDir with
      | some e => ["failed to delete " ++ c.runDir ++ ". err: " ++ e]
      | none => []
    (joinErr (step1.1 ++ (msg3 ++ msg4)),
     step1.2 ++ (cni.2 ++ [Action.removeAll c.dataDir, Action.removeAll c.runDir]))

/-! ### Specification-side characterizations of the loops -/

/-- The actions the substring revert loop performs: unmount then recursive
removal, for exactly the matching entries, in table order. -/
def matchActions (pred : String → Bool) (l : List MountPoint) : List Action :=
  (l.filter fun v => pred v.path).flatMap fun v =>
    [Action.unmount v.path, Action.removeAll v.path]

/-- The failure messages the substring revert loop collects. -/
def matchMsgs (env : SysEnv) (pred : String → Bool) (l : List MountPoint) :
    List String :=
  (l.filter fun v => pred v.path).flatMap fun v =>
    errList (env.unmount v.path) ++ errList (env.removeAll v.path)

/-- The messages collected by the `stopAllContainers` loop. -/
def stopMsgs (env : SysEnv) (cs : List String) : List String :=
  cs.flatMap fun c =>
    match env.stopContainer c with
    | some e =>
      if strContains e "443: connect: connection refused" then []
      else ["failed to stop running pod " ++ c ++ ": err: " ++ e]
    | none => []

/-- Exact-path predicate of `RemoveAllDirectories`'s mount loop. -/
def exactDirPred (dataDir : String) (v : MountPoint) : Bool :=
  v.path == dataDir ++ "/kubelet" || v.path == dataDir

/-- The unmount actions of `RemoveAllDirectories`'s mount loop. -/
def exactDirActions (dataDir : String) (l : List MountPoint) : List Action :=
  (l.filter (exactDirPred dataDir)).map fun v => Action.unmount v.path

/-- The unmount failure messages of `RemoveAllDirectories`'s mount loop. -/
def exactDirMsgs (env : SysEnv) (dataDir : String) (l : List MountPoint) :
    List String :=
  (l.filter (exactDirPred dataDir)).flatMap fun v => errList (env.unmount v.path)

/-- The message `RemoveAllDirectories` collects for a failed recursive
deletion of `dir`. -/
def deleteMsg (env : SysEnv) (dir : String) : List String :=
  match env.removeAll dir with
  | some e => ["failed to delete " ++ dir ++ ". err: " ++ e]
  | none => []

/-! ### Concrete example environments -/

/-- An environment where every call succeeds and nothing is mounted. -/
def baseEnv : SysEnv where
  mounterList := Except.ok []
  unmount := fun _ => none
  removeAll := fun _ => none
  removeFile := fun _ => none
  listContainers := Except.ok []
  stopContainer := fun _ => none
  removeContainer := fun _ => none
  cmdStart := none
  startedPid := 42
  sigInterruptErr := none
  sigKillErr := none

/-- The spec's three-entry example mount table. -/
def exampleMounts : List MountPoint :=
  [{ path := "/var/lib/kubelet/pods/x", device := "d0", fstype := "tmpfs" },
   { path := "/var/lib/other", device := "d1", fstype := "tmpfs" },
   { path := "/run/netns/y", device := "d2", fstype := "nsfs" }]

/-- Environment exposing the spec's example mount table. -/
def exampleEnvC1 : SysEnv := { baseEnv with mounterList := Except.ok exampleMounts }

/-- Environment where container "a" fails to stop with the control-plane
connection-refused message and container "b" stops fine. -/
def exampleEnvC2 : SysEnv :=
  { baseEnv with
    listContainers := Except.ok ["a", "b"]
    stopContainer := fun c =>
      if c == "a" then some "dial tcp 10.96.0.1:443: connect: connection refused"
      else none }

/-- A self-managed config (before `startContainerd`). -/
def cfgSelf : CleanUpConfig where
  containerd := some
    { binPath := "/data/bin/containerd"
      socketPath := "/run/k0s/containerd.sock"
      cmd := none }
  containerRuntime := some (ContainerRuntime.CRIRuntime "unix:////run/k0s/containerd.sock")
  dataDir := "/data"
  runDir := "/run/k0s"

/-- `cfgSelf` after a successful `startContainerd` whose daemon has not
exited (`ProcessState` nil, so `ExitCode()` is `-1`). -/
def cfgNotExited : CleanUpConfig where
  containerd := some
    { binPath := "/data/bin/containerd"
      socketPath := "/run/k0s/containerd.sock"
      cmd := some { processPid := some 42, processStateExitCode := none } }
  containerRuntime := some (ContainerRuntime.CRIRuntime "unix:////run/k0s/containerd.sock")
  dataDir := "/data"
  runDir := "/run/k0s"

/-- The same config once the daemon process has exited with code 0. -/
def cfgExited : CleanUpConfig where
  containerd := some
    { binPath := "/data/bin/containerd"
      socketPath := "/run/k0s/containerd.sock"
      cmd := some { processPid := some 42, processStateExitCode := some 0 } }
  containerRuntime := some (ContainerRuntime.CRIRuntime "unix:////run/k0s/containerd.sock")
  dataDir := "/data"
  runDir := "/run/k0s"

/-- A `SplitRuntimeConfig` stand-in accepting any non-empty spec as a
remote runtime. -/
def splitRemote : String → Except String (String × String) :=
  fun _ => Except.ok ("remote", "/sock")

/-- The config `NewCleanUpConfig` builds from the non-empty spec
`"remote:///sock"` under `splitRemote`: externally supervised, no
containerd handle. -/
def cfgExternal : CleanUpConfig where
  containerd := none
  containerRuntime := some (ContainerRuntime.CRIRuntime "/sock")
  dataDir := "/data"
  runDir := "/run/k0s"

/-- The spawn trace of `startContainerd baseEnv cfgSelf`. -/
def spawnActs : List Action :=
  [Action.spawn "/data/bin/containerd"
    ["--root=/data/containerd", "--state=/run/k0s/containerd",
     "--address=/run/k0s/containerd.sock", "--config=/etc/k0s/containerd.toml"]]

/-- A mount table holding exactly the data directory `/data`. -/
def mountsC4 : List MountPoint :=
  [{ path := "/data", device := "d0", fstype := "ext4" }]

/-- Environment where `/data` is mounted and its unmount fails while every
deletion succeeds. -/
def envC4 : SysEnv :=
  { baseEnv with
    mounterList := Except.ok mountsC4
    unmount := fun _ => some "unmount permission denied" }

/-- Environment where recursively deleting `/data` fails and everything
else succeeds. -/
def envC8 : SysEnv :=
  { baseEnv with
    removeAll := fun p => if p == "/data" then some "device busy" else none }

theorem substrRevertLoop_eq (env : SysEnv) (pat : String) (l : List MountPoint) :
    substrRevertLoop env pat l =
      (matchMsgs env (fun p => strContains p pat) l,
       matchActions (fun p => strContains p pat) l) := by
  induction l with
  | nil => rfl
  | cons v rest ih =>
    by_cases h : strContains v.path pat
    · simp [substrRevertLoop, matchMsgs, matchActions, h, ih, List.append_assoc]
    · simp [substrRevertLoop, matchMsgs, matchActions, h, ih]

theorem stopAllLoop_eq (env : SysEnv) (cs : List String) :
    stopAllLoop env cs = (stopMsgs env cs, cs.map Action.stopContainer) := by
  induction cs with
  | nil => rfl
  | cons c rest ih => simp [stopAllLoop, stopMsgs, ih]

theorem removeAllDirsLoop_eq (env : SysEnv) (d : String) (l : List MountPoint) :
    removeAllDirsLoop env d l = (exactDirMsgs env d l, exactDirActions d l) := by
  induction l with
  | nil => rfl
  | cons v rest ih =>
    by_cases h1 : v.path == d ++ "/kubelet"
    · simp [removeAllDirsLoop, exactDirMsgs, exactDirActions, exactDirPred, h1, ih]
    · by_cases h2 : v.path == d
      · simp [removeAllDirsLoop, exactDirMsgs, exactDirActions, exactDirPred, h1, h2, ih]
      · simp [removeAllDirsLoop, exactDirMsgs, exactDirActions, exactDirPred, h1, h2, ih]

theorem joinErr_nil : joinErr [] = Except.ok () := rfl

theorem joinErr_cons (m : String) (ms : List String) :
    joinErr (m :: ms) = Except.error (String.intercalate ", " (m :: ms)) := by
  simp [joinErr]

theorem joinErr_single (m : String) : joinErr [m] = Except.error m := rfl

/-! ### Claim theorems -/

/-- C1: for every mount-table entry whose path contains the substring
(`"kubelet/pods"` for `cleanupMount`, `"run/netns"` for
`cleanupNetworkNamespace`), the reverter attempts unmount and then recursive
removal of the mount point — the two attempts independent of each other's
outcome; non-matching entries are untouched; every failure message is
collected and joined into one combined error; the loop never aborts early.
On the spec's example table, the kubelet revert unmounts and removes exactly
`"/var/lib/kubelet/pods/x"`. -/
theorem cleanupMount_revert_spec (env : SysEnv) (l : List MountPoint)
    (h : env.mounterList = Except.ok l) :
    (cleanupMount env).2 = matchActions (fun p => strContains p "kubelet/pods") l ∧
    (cleanupMount env).1 =
      joinErr (matchMsgs env (fun p => strContains p "kubelet/pods") l) ∧
    (cleanupNetworkNamespace env).2 =
      matchActions (fun p => strContains p "run/netns") l ∧
    (cleanupNetworkNamespace env).1 =
      joinErr (matchMsgs env (fun p => strContains p "run/netns") l) ∧
    (cleanupMount exampleEnvC1).2 =
      [Action.unmount "/var/lib/kubelet/pods/x",
       Action.removeAll "/var/lib/kubelet/pods/x"] := by
  refine ⟨?_, ?_, ?_, ?_, ?_⟩
  · simp [cleanupMount, h, substrRevertLoop_eq]
  · simp [cleanupMount, h, substrRevertLoop_eq]
  · simp [cleanupNetworkNamespace, h, substrRevertLoop_eq]
  · simp [cleanupNetworkNamespace, h, substrRevertLoop_eq]
  · rfl

/-- Witness for C1 at the spec's example mount table. -/
theorem cleanupMount_revert_spec_witness :
    (cleanupMount exampleEnvC1).2 =
      matchActions (fun p => strContains p "kubelet/pods") exampleMounts ∧
    (cleanupMount exampleEnvC1).1 =
      joinErr (matchMsgs exampleEnvC1 (fun p => strContains p "kubelet/pods") exampleMounts) ∧
    (cleanupNetworkNamespace exampleEnvC1).2 =
      matchActions (fun p => strContains p "run/netns") exampleMounts ∧
    (cleanupNetworkNamespace exampleEnvC1).1 =
      joinErr (matchMsgs exampleEnvC1 (fun p => strContains p "run/netns") exampleMounts) ∧
    (cleanupMount exampleEnvC1).2 =
      [Action.unmount "/var/lib/kubelet/pods/x",
       Action.removeAll "/var/lib/kubelet/pods/x"] :=
  cleanupMount_revert_spec exampleEnvC1 exampleMounts rfl

/-- C2: during `stopAllContainers`, a stop failure whose message contains
`"443: connect: connection refused"` is silently dropped from the aggregated
error; every other stop failure is collected (formatted, comma-joined); the
iteration covers every listed container and never stops early.  On a concrete
run where container `"a"` fails with the connection-refused message, the
phase returns no error while still having attempted both stops. -/
theorem stopAllContainers_spec (env : SysEnv) (cs : List String)
    (h : env.listContainers = Except.ok cs) :
    (stopAllContainers env).2 = cs.map Action.stopContainer ∧
    (stopAllContainers env).1 = joinErr (stopMsgs env cs) ∧
    (stopAllContainers exampleEnvC2).1 = Except.ok () ∧
    (stopAllContainers exampleEnvC2).2 =
      [Action.stopContainer "a", Action.stopContainer "b"] := by
  refine ⟨?_, ?_, ?_, ?_⟩
  · simp [stopAllContainers, h, stopAllLoop_eq]
  · simp [stopAllContainers, h, stopAllLoop_eq]
  · rfl
  · rfl

/-- Witness for C2 at the concrete two-container environment. -/
theorem stopAllContainers_spec_witness :
    (stopAllContainers exampleEnvC2).2 = (["a", "b"] : List String).map Action.stopContainer ∧
    (stopAllContainers exampleEnvC2).1 = joinErr (stopMsgs exampleEnvC2 ["a", "b"]) ∧
    (stopAllContainers exampleEnvC2).1 = Except.ok () ∧
    (stopAllContainers exampleEnvC2).2 =
      [Action.stopContainer "a", Action.stopContainer "b"] :=
  stopAllContainers_spec exampleEnvC2 ["a", "b"] rfl

/-- C7: if listing containers fails, `stopAllContainers` and
`removeAllContainers` return that error immediately and attempt no
per-container operation. -/
theorem list_failure_short_circuits (env : SysEnv) (e : String)
    (h : env.listContainers = Except.error e) :
    stopAllContainers env = (Except.error e, []) ∧
    removeAllContainers env = (Except.error e, []) := by
  constructor
  · simp [stopAllContainers, h]
  · simp [removeAllContainers, h]

/-- Witness for C7 with a concrete listing failure. -/
theorem list_failure_short_circuits_witness :
    stopAllContainers { baseEnv with listContainers := Except.error "boom" } =
      (Except.error "boom", []) ∧
    removeAllContainers { baseEnv with listContainers := Except.error "boom" } =
      (Except.error "boom", []) :=
  list_failure_short_circuits { baseEnv with listContainers := Except.error "boom" } "boom" rfl

/-- Case analysis of a successful `NewCleanUpConfig`: an empty socket spec
yields the fully determined self-managed config, a non-empty one yields a
config with no containerd handle. -/
theorem newCleanUpConfig_cases (split : String → Except String (String × String))
    (dataDir sock : String) (c : CleanUpConfig)
    (h : NewCleanUpConfig split dataDir sock = Except.ok c) :
    (sock = "" ∧
      c = { containerd := some { binPath := dataDir ++ "/bin/containerd"
                                 socketPath := "/run/k0s/containerd.sock"
                                 cmd := none }
            containerRuntime :=
              some (ContainerRuntime.CRIRuntime "unix:////run/k0s/containerd.sock")
            dataDir := dataDir
            runDir := "/run/k0s" }) ∨
    (sock ≠ "" ∧ c.containerd = none) := by
  by_cases hs : sock = ""
  · subst hs
    left
    refine ⟨rfl, ?_⟩
    have hr : NewCleanUpConfig split dataDir "" =
        Except.ok { containerd := some { binPath := dataDir ++ "/bin/containerd"
                                         socketPath := "/run/k0s/containerd.sock"
                                         cmd := none }
                    containerRuntime :=
                      some (ContainerRuntime.CRIRuntime "unix:////run/k0s/containerd.sock")
                    dataDir := dataDir
                    runDir := "/run/k0s" } := rfl
    rw [hr] at h
    exact (Except.ok.inj h).symm
  · right
    refine ⟨hs, ?_⟩
    have hb : (sock == "") = false := beq_eq_false_iff_ne.mpr hs
    unfold NewCleanUpConfig at h
    rw [hb] at h
    simp only [Bool.false_eq_true, if_false] at h
    rcases hsp : split sock with e | rc <;> rw [hsp] at h
    · exact absurd h (by simp)
    · rw [(Except.ok.inj h).symm]

/-- Characterization of a successful `startContainerd`: the input config
had a containerd handle, and the output records a started `cmd` whose
`Process` is live and whose `ProcessState` is still nil. -/
theorem startContainerd_ok (env : SysEnv) (c0 c1 : CleanUpConfig) (acts : List Action)
    (h : startContainerd env c0 = Except.ok (c1, acts)) :
    ∃ ctrd, c0.containerd = some ctrd ∧
      c1.containerd = some { ctrd with
        cmd := some { processPid := some env.startedPid
                      processStateExitCode := none } } := by
  rcases hc : c0.containerd with _ | ctrd <;> rw [startContainerd, hc] at h
  · exact absurd h (by simp)
  · rcases hst : env.cmdStart with _ | e <;> rw [hst] at h
    · refine ⟨ctrd, rfl, ?_⟩
      have h3 : c1 = _ := (congrArg Prod.fst (Except.ok.inj h)).symm
      rw [h3]
    · exact absurd h (by simp)

/-- C5: `NewCleanUpConfig` sets the self-managed daemon handle iff the
socket spec is empty; in the empty case the runtime defaults to CRI at the
fixed local address `unix:////run/k0s/containerd.sock` derived from the run
directory, with daemon binary `<dataDir>/bin/containerd` and socket file
`/run/k0s/containerd.sock`; in the non-empty case the handle is never set. -/
theorem NewCleanUpConfig_handle_iff (split : String → Except String (String × String))
    (dataDir sock : String) (c : CleanUpConfig)
    (h : NewCleanUpConfig split dataDir sock = Except.ok c) :
    (c.containerd.isSome = true ↔ sock = "") ∧
    (sock = "" →
      c.containerd = some { binPath := dataDir ++ "/bin/containerd"
                            socketPath := "/run/k0s/containerd.sock"
                            cmd := none } ∧
      c.containerRuntime =
        some (ContainerRuntime.CRIRuntime "unix:////run/k0s/containerd.sock")) := by
  rcases newCleanUpConfig_cases split dataDir sock c h with ⟨hs, hc⟩ | ⟨hs, hc⟩
  · subst hc
    exact ⟨by simp [hs], fun _ => ⟨rfl, rfl⟩⟩
  · rw [hc]
    simp [hs]

/-- Witness for C5 at an empty socket spec. -/
theorem NewCleanUpConfig_handle_iff_witness :
    (cfgSelf.containerd.isSome = true ↔ ("" : String) = "") ∧
    (("" : String) = "" →
      cfgSelf.containerd = some { binPath := "/data" ++ "/bin/containerd"
                                  socketPath := "/run/k0s/containerd.sock"
                                  cmd := none } ∧
      cfgSelf.containerRuntime =
        some (ContainerRuntime.CRIRuntime "unix:////run/k0s/containerd.sock")) :=
  NewCleanUpConfig_handle_iff splitRemote "/data" "" cfgSelf rfl

/-- C10: `stopContainerd` has the unstated precondition of a started
self-managed daemon: on a config built from a non-empty socket spec (where
the containerd handle is nil) it dereferences a nil pointer, while on the
config produced by any successful `startContainerd` the dereferences are
safe and the routine completes. -/
theorem stopContainerd_nil_safety
    (split split2 : String → Except String (String × String))
    (env env2 : SysEnv) (dataDir dataDir2 sock : String) (c c0 c1 c2 : CleanUpConfig)
    (acts : List Action) (hs : sock ≠ "")
    (h : NewCleanUpConfig split dataDir sock = Except.ok c)
    (h2 : startContainerd env2 c0 = Except.ok (c1, acts))
    (h4 : NewCleanUpConfig split2 dataDir2 "" = Except.ok c2) :
    stopContainerd env c = Except.error nilDeref ∧
    stopContainerd env c2 = Except.error nilDeref ∧
    stopContainerd env c1 = Except.ok ([Action.sigInterrupt], interruptLog env) := by
  refine ⟨?_, ?_, ?_⟩
  · rcases newCleanUpConfig_cases split dataDir sock c h with ⟨hs2, _⟩ | ⟨_, hc⟩
    · exact absurd hs2 hs
    · rw [stopContainerd, hc]
  · rcases newCleanUpConfig_cases split2 dataDir2 "" c2 h4 with ⟨_, hc2⟩ | ⟨hne, _⟩
    · rw [hc2]
      rfl
    · exact absurd rfl hne
  · rcases startContainerd_ok env2 c0 c1 acts h2 with ⟨ctrd, _, hc1⟩
    rw [stopContainerd, hc1]
    simp [cmdExitCode]

/-- Witness for C10: the external-socket config panics, the started
self-managed config stops cleanly. -/
theorem stopContainerd_nil_safety_witness :
    stopContainerd baseEnv cfgExternal = Except.error nilDeref ∧
    stopContainerd baseEnv cfgSelf = Except.error nilDeref ∧
    stopContainerd baseEnv cfgNotExited =
      Except.ok ([Action.sigInterrupt], interruptLog baseEnv) :=
  stopContainerd_nil_safety splitRemote splitRemote baseEnv baseEnv "/data" "/data"
    "remote:///sock" cfgExternal cfgSelf cfgNotExited cfgSelf spawnActs
    (by decide) rfl rfl rfl

/-- C3 (code bug): the source comment says "if process didn't exit, wait a
few seconds and send SIGKILL", but the condition `ExitCode() != -1` is true
exactly when the process HAS exited (`ExitCode()` is `-1` while it has
not): on a daemon that has not exited no kill signal is ever sent, and on
one that has already exited the kill is sent after the 5s sleep.  Signal
failures only produce log lines; the routine always completes. -/
theorem stopContainerd_kill_only_when_exited (env : SysEnv) :
    stopContainerd env cfgNotExited = Except.ok ([Action.sigInterrupt], interruptLog env) ∧
    stopContainerd env cfgExited =
      Except.ok ([Action.sigInterrupt, Action.sleep 5, Action.sigKill],
        interruptLog env ++ killLog env) := by
  constructor
  · rw [stopContainerd]
    simp [cfgNotExited, cmdExitCode]
  · rw [stopContainerd]
    simp [cfgExited, cmdExitCode]

/-- C6 (code bug): `NewContainerRuntime` for the non-CRI (`"docker"`)
variant returns the Go pair `(nil, nil)` — a null, usable-looking
capability with no error — instead of failing fast or marking the variant
unsupported. -/
theorem NewContainerRuntime_docker_null :
    NewContainerRuntime "docker" "unix:///var/run/docker.sock" = (none, none) := rfl

/-- C4 counterexample: with the data directory mounted, its unmount failing
and every deletion (steps 3 and 4) succeeding, `RemoveAllDirectories`
returns an error carrying the step-1 unmount failure — refuting "only
failures from steps 3 and 4 are aggregated into the returned error". -/
theorem RemoveAllDirectories_step1_error_cex :
    envC4.removeAll cfgExternal.dataDir = none ∧
    envC4.removeAll cfgExternal.runDir = none ∧
    (RemoveAllDirectories envC4 cfgExternal).1 =
      Except.error "unmount permission denied" :=
  ⟨rfl, rfl, rfl⟩

/-- C4 (amended): the four steps run in that order (witnessed by the action
trace); step-1 unmount failures and step-3/4 deletion failures are all
aggregated into the returned error, step-2 CNI failures are only logged and
never appear in it, and no individual failure blocks the later steps. -/
theorem RemoveAllDirectories_steps (env : SysEnv) (c : CleanUpConfig)
    (l : List MountPoint) (h : env.mounterList = Except.ok l) :
    (RemoveAllDirectories env c).2 =
      exactDirActions c.dataDir l ++
      ([Action.removeFile calico10Conflist, Action.removeFile calicoKubeconfig,
        Action.removeFile kuberouter10Conflist] ++
       [Action.removeAll c.dataDir, Action.removeAll c.runDir]) ∧
    (RemoveAllDirectories env c).1 =
      joinErr (exactDirMsgs env c.dataDir l ++
        (deleteMsg env c.dataDir ++ deleteMsg env c.runDir)) := by
  constructor
  · simp [RemoveAllDirectories, h, removeAllDirsLoop_eq, removeCNILeftovers]
  · simp [RemoveAllDirectories, h, removeAllDirsLoop_eq, deleteMsg]

/-- Witness for the amended C4 at the concrete failing-unmount run. -/
theorem RemoveAllDirectories_steps_witness :
    (RemoveAllDirectories envC4 cfgExternal).2 =
      exactDirActions cfgExternal.dataDir mountsC4 ++
      ([Action.removeFile calico10Conflist, Action.removeFile calicoKubeconfig,
        Action.removeFile kuberouter10Conflist] ++
       [Action.removeAll cfgExternal.dataDir, Action.removeAll cfgExternal.runDir]) ∧
    (RemoveAllDirectories envC4 cfgExternal).1 =
      joinErr (exactDirMsgs envC4 cfgExternal.dataDir mountsC4 ++
        (deleteMsg envC4 cfgExternal.dataDir ++ deleteMsg envC4 cfgExternal.runDir)) :=
  RemoveAllDirectories_steps envC4 cfgExternal mountsC4 rfl

/-- C8: the two recursive deletions are attempted independently — the
run-directory deletion appears in the trace even though the data-directory
deletion failed — and when only the data-directory deletion fails the
aggregated error is exactly that one failure message. -/
theorem RemoveAllDirectories_dirs_independent (env : SysEnv) (c : CleanUpConfig)
    (l : List MountPoint) (e : String)
    (h : env.mounterList = Except.ok l)
    (h1 : exactDirMsgs env c.dataDir l = [])
    (h2 : env.removeAll c.dataDir = some e)
    (h3 : env.removeAll c.runDir = none) :
    (RemoveAllDirectories env c).1 =
      Except.error ("failed to delete " ++ c.dataDir ++ ". err: " ++ e) ∧
    Action.removeAll c.runDir ∈ (RemoveAllDirectories env c).2 := by
  constructor
  · simp [RemoveAllDirectories, h, removeAllDirsLoop_eq, h1, h2, h3, joinErr_single]
  · simp [RemoveAllDirectories, h, removeAllDirsLoop_eq]

/-- Witness for C8: only `/data` fails to delete. -/
theorem RemoveAllDirectories_dirs_independent_witness :
    (RemoveAllDirectories envC8 cfgExternal).1 =
      Except.error ("failed to delete " ++ cfgExternal.dataDir ++ ". err: " ++ "device busy") ∧
    Action.removeAll cfgExternal.runDir ∈ (RemoveAllDirectories envC8 cfgExternal).2 :=
  RemoveAllDirectories_dirs_independent envC8 cfgExternal [] "device busy" rfl rfl rfl rfl

/-- `exactDirMsgs` only reads the `unmount` field of the environment. -/
theorem exactDirMsgs_unmount (env env2 : SysEnv) (h : env.unmount = env2.unmount)
    (d : String) (l : List MountPoint) :
    exactDirMsgs env d l = exactDirMsgs env2 d l := by
  simp [exactDirMsgs, h]

/-- C9: `removeCNILeftovers` always attempts exactly the three fixed CNI
paths and yields only a debug log line; whatever the three `os.Remove`
outcomes (present, missing, or failing files), the error returned by
`RemoveAllDirectories` is unchanged — no CNI failure ever propagates. -/
theorem removeCNILeftovers_isolated (env : SysEnv) (f : String → Option String)
    (c : CleanUpConfig) :
    (RemoveAllDirectories { env with removeFile := f } c).1 =
      (RemoveAllDirectories env c).1 ∧
    (removeCNILeftovers env).2 =
      [Action.removeFile calico10Conflist, Action.removeFile calicoKubeconfig,
       Action.removeFile kuberouter10Conflist] := by
  constructor
  · rcases hm : env.mounterList with e | l
    · simp [RemoveAllDirectories, hm]
    · simp [RemoveAllDirectories, hm, removeAllDirsLoop_eq]
      have he := exactDirMsgs_unmount
        { env with mounterList := Except.ok l, removeFile := f } env rfl c.dataDir l
      rw [he]
  · rfl

end K0s
